import Mathlib

/-!
Shallow embedding of the Gilson FC-203B GSIOC serial driver
(class `GilsonFC203B` in `0129_gilson통신.py`).

Modelling conventions:
* Serial-bus side effects are recorded as an explicit event trace
  (`Ev`): byte writes, buffer flushes, sleeps, reads and port closing.
* The device's behaviour is an oracle supplied as input.  Each point in
  the Python code that checks `ser.in_waiting > 0` and conditionally
  reads one byte consumes one `Option Nat` from the oracle:
  `some b` means a byte `b` was waiting and was read, `none` means no
  byte was waiting at that moment.
* Real time is abstracted: `time.sleep(s)` becomes an `Ev.sleep`
  event (milliseconds), and the 1-second receive window of an
  Immediate command is modelled by the finite oracle stream running
  out (each stream element is one iteration of the bounded wait loop).
* Python `float` arithmetic is modelled with `ℚ`; Python `int()`
  applied to a number truncates toward zero.
-/

namespace Gilson

/-- One observable serial-port action of the driver. -/
inductive Ev where
  | flushIn : Ev
  | flushOut : Ev
  | write : Nat → Ev
  | readB : Ev
  | sleep : Nat → Ev
  | closePort : Ev
deriving DecidableEq, Repr

/-- Driver connection state: `self.ser`/`ser.is_open` and `self.connected`. -/
structure DriverState where
  portOpen : Bool
  connected : Bool
deriving DecidableEq, Repr

/-- Device oracle for one Immediate exchange: the echo byte available at the
`_connect_slave` check, and the stream of availability-check results seen by
the receive loop of `_send_immediate`. -/
structure ImmOracle where
  echo : Option Nat
  stream : List (Option Nat)

/-- Device oracle for one Buffered exchange: the `_connect_slave` echo byte,
the byte available after the first Line-Feed, and the per-character echo
bytes seen while the command string is transmitted. -/
structure BufOracle where
  echo : Option Nat
  lfResp : Option Nat
  charEchoes : List (Option Nat)

/-- Events of `_connect_slave`: flush both buffers, write the disconnect-all
byte `0xFF`, wait 20 ms, write the addressing byte `unit_id + 128`, wait
20 ms, and read one byte if one is waiting. -/
def connectSlaveEvs (unitId : Nat) (echo : Option Nat) : List Ev :=
  [Ev.flushIn, Ev.flushOut, Ev.write 255, Ev.sleep 20,
   Ev.write (unitId + 128), Ev.sleep 20] ++
  (match echo with
   | some _ => [Ev.readB]
   | none => [])

/-- Result of `_connect_slave`: true exactly when a byte was waiting and it
equals the addressing byte `unit_id + 128`. -/
def connectSlaveOk (unitId : Nat) (echo : Option Nat) : Bool :=
  match echo with
  | some b => b == unitId + 128
  | none => false

/-- Receive loop of `_send_immediate`.  Each oracle element is one iteration
of the 1-second `while` loop: `none` means no byte waiting (sleep 10 ms),
`some b` with `b ≥ 128` is the terminator (high bit set; appended with the
high bit cleared, then break), any other `some b` is appended as-is and
acknowledged with an ACK byte `0x06`.  When the window runs out the joined
buffer is returned, or `none` if the buffer is empty. -/
def recvImm : List (Option Nat) → List Char → Option String × List Ev
  | [], acc => ((if acc.isEmpty then none else some (String.mk acc.reverse)), [])
  | none :: rest, acc =>
      let p := recvImm rest acc
      (p.1, Ev.sleep 10 :: p.2)
  | some b :: rest, acc =>
      if 128 ≤ b then
        (some (String.mk (Char.ofNat (b - 128) :: acc).reverse), [Ev.readB])
      else
        let p := recvImm rest (Char.ofNat b :: acc)
        (p.1, Ev.readB :: Ev.write 6 :: p.2)

/-- `_send_immediate`: when disconnected return `None` with no bus I/O;
otherwise re-address the slave, write the single command character, and run
the receive loop. -/
def sendImmediate (unitId : Nat) (connected : Bool) (c : Char)
    (o : ImmOracle) : Option String × List Ev :=
  if connected then
    let p := recvImm o.stream []
    (p.1, connectSlaveEvs unitId o.echo ++ Ev.write c.toNat :: p.2)
  else (none, [])

/-- Line-Feed handshake of `_send_buffered`: write LF, wait 20 ms, and if a
byte is waiting read it; if that byte is `'#'` (busy) wait 100 ms, write LF
once more and wait 20 ms.  The response to the retried LF is not checked. -/
def lfHandshakeEvs (lfResp : Option Nat) : List Ev :=
  Ev.write 10 :: Ev.sleep 20 ::
  (match lfResp with
   | some b =>
       Ev.readB :: (if b == 35 then [Ev.sleep 100, Ev.write 10, Ev.sleep 20] else [])
   | none => [])

/-- Character transmission loop of `_send_buffered`: write each command
character, wait 10 ms, and read (and discard) one echoed byte when one is
waiting. -/
def charEchoEvs : List Char → List (Option Nat) → List Ev
  | [], _ => []
  | c :: cs, os =>
      Ev.write c.toNat :: Ev.sleep 10 ::
      ((match os.head? with
        | some (some _) => [Ev.readB]
        | _ => []) ++ charEchoEvs cs os.tail)

/-- `_send_buffered`: when disconnected return `false` with no bus I/O;
otherwise re-address the slave, run the LF handshake, transmit the command
characters, write CR and wait 50 ms.  The function then returns `true`
unconditionally. -/
def sendBuffered (unitId : Nat) (connected : Bool) (cmd : String)
    (o : BufOracle) : Bool × List Ev :=
  if connected then
    (true,
     connectSlaveEvs unitId o.echo ++ lfHandshakeEvs o.lfResp ++
     charEchoEvs cmd.data o.charEchoes ++ [Ev.write 13, Ev.sleep 50])
  else (false, [])

/-- Python `int()` applied to a number: truncation toward zero. -/
def pyTrunc (q : ℚ) : ℤ :=
  if 0 ≤ q then ⌊q⌋ else ⌈q⌉

/-- The clamped tenth-of-millimeter axis value of `move_to_xy`:
`max(0, min(9999, int(v_mm * 10)))`. -/
def axisUnitsZ (v_mm : ℚ) : ℤ :=
  max 0 (min 9999 (pyTrunc (v_mm * 10)))

/-- The clamped axis value as a natural number (it is always in `[0, 9999]`). -/
def axisUnits (v_mm : ℚ) : Nat :=
  (axisUnitsZ v_mm).toNat

/-- Python `f"{n:04d}"` on the clamped domain `0 ≤ n ≤ 9999`, the only values
the driver ever formats: the four decimal digits of `n`, zero-padded. -/
def pad4 (n : Nat) : String :=
  String.mk [Char.ofNat (48 + n / 1000 % 10), Char.ofNat (48 + n / 100 % 10),
             Char.ofNat (48 + n / 10 % 10), Char.ofNat (48 + n % 10)]

/-- The Buffered X-axis command string built by `move_to_xy`. -/
def xCommand (x_mm : ℚ) : String :=
  "X" ++ pad4 (axisUnits x_mm)

/-- The Buffered Y-axis command string built by `move_to_xy`. -/
def yCommand (y_mm : ℚ) : String :=
  "Y" ++ pad4 (axisUnits y_mm)

/-- The stationarity test of `_wait_motion_complete` on one axis response:
the response is present, non-empty, and its first character is `'S'`. -/
def axStationary (r : Option String) : Bool :=
  match r with
  | none => false
  | some s => !s.isEmpty && s.front == 'S'

/-- One polling iteration of `_wait_motion_complete`: issue Immediate `'X'`
and `'Y'` and report whether both axes are stationary. -/
def pollOnce (unitId : Nat) (connected : Bool) (p : ImmOracle × ImmOracle) :
    Bool × List Ev :=
  let px := sendImmediate unitId connected 'X' p.1
  let py := sendImmediate unitId connected 'Y' p.2
  (axStationary px.1 && axStationary py.1, px.2 ++ py.2)

/-- `_wait_motion_complete`: poll both axes until both report stationary,
sleeping 100 ms between iterations; the poll list running out is the
timeout (default 10 s), upon which the call returns `false`. -/
def waitMotion (unitId : Nat) (connected : Bool) :
    List (ImmOracle × ImmOracle) → Bool × List Ev
  | [] => (false, [])
  | p :: rest =>
      let q := pollOnce unitId connected p
      if q.1 then (true, q.2)
      else
        let w := waitMotion unitId connected rest
        (w.1, q.2 ++ Ev.sleep 100 :: w.2)

/-- Device oracle for one `move_to_xy` call: the two Buffered exchanges and
the motion-completion polls. -/
structure MoveOracle where
  ox : BufOracle
  oy : BufOracle
  polls : List (ImmOracle × ImmOracle)

/-- `move_to_xy`: send the Buffered X command, sleep 100 ms, send the
Buffered Y command, then wait for motion completion.  Only the event
trace is observable. -/
def moveToXy (unitId : Nat) (connected : Bool) (x_mm y_mm : ℚ)
    (o : MoveOracle) : List Ev :=
  let bx := sendBuffered unitId connected (xCommand x_mm) o.ox
  let by_ := sendBuffered unitId connected (yCommand y_mm) o.oy
  let w := waitMotion unitId connected o.polls
  bx.2 ++ Ev.sleep 100 :: (by_.2 ++ w.2)

/-- Decimal value of a digit list (most significant first). -/
def digitsVal (ds : List Char) : Nat :=
  ds.foldl (fun a c => a * 10 + (c.toNat - 48)) 0

/-- Python `int(str)`: strip surrounding whitespace, accept an optional sign
followed by a non-empty run of decimal digits, otherwise fail (`ValueError`,
i.e. `none`).  PEP 515 underscore separators are not modelled. -/
def pyInt (s : List Char) : Option ℤ :=
  let t := ((s.dropWhile Char.isWhitespace).reverse.dropWhile
              Char.isWhitespace).reverse
  match t with
  | '-' :: ds =>
      if !ds.isEmpty && ds.all Char.isDigit then some (-(digitsVal ds : ℤ))
      else none
  | '+' :: ds =>
      if !ds.isEmpty && ds.all Char.isDigit then some (digitsVal ds) else none
  | ds =>
      if !ds.isEmpty && ds.all Char.isDigit then some (digitsVal ds) else none

/-- Per-axis parsing of `get_position`: the response must be present and at
least 5 characters long; the value is `int(resp[2:]) / 10.0`, and any parse
failure yields `none` for that axis (the `try`/`except` swallows it). -/
def parseAxis (r : Option String) : Option ℚ :=
  match r with
  | none => none
  | some s =>
      if 5 ≤ s.length then
        (pyInt (s.data.drop 2)).map (fun n => (n : ℚ) / 10)
      else none

/-- `get_position`: issue Immediate `'X'` then Immediate `'Y'` and parse the
two responses independently. -/
def getPosition (unitId : Nat) (connected : Bool) (ox oy : ImmOracle) :
    (Option ℚ × Option ℚ) × List Ev :=
  let px := sendImmediate unitId connected 'X' ox
  let py := sendImmediate unitId connected 'Y' oy
  ((parseAxis px.1, parseAxis py.1), px.2 ++ py.2)

/-- `get_tube`: issue Immediate `'T'`; a missing or empty response, or a
parse failure, yields 0. -/
def getTube (unitId : Nat) (connected : Bool) (o : ImmOracle) :
    ℤ × List Ev :=
  let p := sendImmediate unitId connected 'T' o
  ((match p.1 with
    | none => 0
    | some s => if s.isEmpty then 0 else (pyInt s.data).getD 0), p.2)

/-- `connect`: open the serial port (`openOk = false` models a
`SerialException`, caught and reported as failure), sleep 100 ms, run
`_connect_slave`; on a verified echo set the state to connected and read
the firmware version as a sanity probe; otherwise close the port and report
failure, the state remaining disconnected. -/
def connect (unitId : Nat) (openOk : Bool) (echo : Option Nat)
    (versionO : ImmOracle) : Bool × DriverState × List Ev :=
  if openOk then
    if connectSlaveOk unitId echo then
      let v := sendImmediate unitId true '%' versionO
      (true, ⟨true, true⟩, Ev.sleep 100 :: (connectSlaveEvs unitId echo ++ v.2))
    else
      (false, ⟨false, false⟩,
       Ev.sleep 100 :: (connectSlaveEvs unitId echo ++ [Ev.closePort]))
  else (false, ⟨false, false⟩, [])

/-- `disconnect`: when the port is open, write the disconnect-all byte
(`_disconnect_slave`), wait 20 ms, close the port and clear the connected
flag; when the port is not open, do nothing.  `writeOk = false` models the
underlying write raising `SerialException`; there is no `try`/`except`, so
the exception propagates and neither the close nor the state change
happens. -/
def disconnect (st : DriverState) (writeOk : Bool) :
    Except String Unit × DriverState × List Ev :=
  if st.portOpen then
    if writeOk then
      (Except.ok (), ⟨false, false⟩, [Ev.write 255, Ev.sleep 20, Ev.closePort])
    else
      (Except.error "SerialException", st, [])
  else (Except.ok (), st, [])

/-- Bytes written in a trace, in order. -/
def writesOf (tr : List Ev) : List Nat :=
  tr.filterMap (fun e =>
    match e with
    | Ev.write b => some b
    | _ => none)

/-- Combined stationarity of one `_wait_motion_complete` poll. -/
def pollStationary (unitId : Nat) (p : ImmOracle × ImmOracle) : Bool :=
  axStationary (sendImmediate unitId true 'X' p.1).1 &&
  axStationary (sendImmediate unitId true 'Y' p.2).1

/-- Modelled from the spec's words for claim C1 only (the code differs): the
transmitted axis value as the claim states it, `round(x_mm * 10)` clamped
to `[0, 9999]`. -/
def specRoundUnits (v_mm : ℚ) : ℤ :=
  max 0 (min 9999 (round (v_mm * 10)))

theorem axisUnitsZ_nonneg (v : ℚ) : 0 ≤ axisUnitsZ v :=
  le_max_left 0 _

theorem axisUnitsZ_le (v : ℚ) : axisUnitsZ v ≤ 9999 :=
  max_le (by norm_num) (min_le_left 9999 _)

theorem axisUnits_le (v : ℚ) : axisUnits v ≤ 9999 :=
  Int.toNat_le.mpr (axisUnitsZ_le v)

theorem pad4_length (n : Nat) : (pad4 n).length = 4 := rfl

theorem xCommand_length (v : ℚ) : (xCommand v).length = 5 := by
  rw [xCommand, String.length_append, pad4_length]
  rfl

theorem yCommand_length (v : ℚ) : (yCommand v).length = 5 := by
  rw [yCommand, String.length_append, pad4_length]
  rfl

theorem axisUnitsZ_fifty : axisUnitsZ 50 = 500 := by
  norm_num [axisUnitsZ, pyTrunc]

theorem axisUnitsZ_neg_five : axisUnitsZ (-5) = 0 := by
  rw [axisUnitsZ, pyTrunc]
  rw [show ((-5 : ℚ) * 10) = ((-50 : ℤ) : ℚ) by norm_num]
  rw [if_neg (by norm_num), Int.ceil_intCast]
  decide

theorem axisUnitsZ_fifteen_hundred : axisUnitsZ 1500 = 9999 := by
  norm_num [axisUnitsZ, pyTrunc]

/-- C1 counterexample: at `x_mm = 0.19` the code transmits `"X0001"` (Python
`int()` truncates `1.9` to `1`), while the claim's `round(x_mm*10)` is `2`,
so the transmitted command is not the rounded value. -/
theorem moveToXy_round_claim_false :
    xCommand (19 / 100) = "X0001" ∧
    specRoundUnits (19 / 100) = 2 ∧
    xCommand (19 / 100) ≠ "X" ++ pad4 ((specRoundUnits (19 / 100)).toNat) := by
  have hz : axisUnitsZ (19 / 100) = 1 := by norm_num [axisUnitsZ, pyTrunc]
  have hx : xCommand (19 / 100) = "X0001" := by
    rw [xCommand, axisUnits, hz]
    rfl
  have hr : specRoundUnits (19 / 100) = 2 := by
    norm_num [specRoundUnits, round_eq]
  refine ⟨hx, hr, ?_⟩
  rw [hx, hr]
  decide

/-- C1 (amended): `move_to_xy` clamps each axis independently so the
transmitted value lies in `[0, 9999]` tenths of a millimeter, and the
transmitted X command is `'X'` followed by the 4-digit zero-padded
truncation toward zero of `x_mm * 10` (Python `int`, not `round`); in
particular 50.0 yields `"0500"`, -5.0 yields `"0000"` and 1500.0 yields
`"9999"`, and likewise for the Y axis. -/
theorem moveToXy_truncated_clamped_encoding :
    (∀ v : ℚ, 0 ≤ axisUnitsZ v ∧ axisUnitsZ v ≤ 9999 ∧ axisUnits v ≤ 9999 ∧
      xCommand v = "X" ++ pad4 (axisUnits v) ∧
      yCommand v = "Y" ++ pad4 (axisUnits v) ∧
      (xCommand v).length = 5 ∧ (yCommand v).length = 5) ∧
    xCommand 50 = "X0500" ∧ xCommand (-5) = "X0000" ∧
    xCommand 1500 = "X9999" ∧ yCommand 50 = "Y0500" ∧
    yCommand (-5) = "Y0000" ∧ yCommand 1500 = "Y9999" := by
  refine ⟨fun v => ⟨axisUnitsZ_nonneg v, axisUnitsZ_le v, axisUnits_le v, rfl,
    rfl, xCommand_length v, yCommand_length v⟩, ?_, ?_, ?_, ?_, ?_, ?_⟩
  · rw [xCommand, axisUnits, axisUnitsZ_fifty]; rfl
  · rw [xCommand, axisUnits, axisUnitsZ_neg_five]; rfl
  · rw [xCommand, axisUnits, axisUnitsZ_fifteen_hundred]; rfl
  · rw [yCommand, axisUnits, axisUnitsZ_fifty]; rfl
  · rw [yCommand, axisUnits, axisUnitsZ_neg_five]; rfl
  · rw [yCommand, axisUnits, axisUnitsZ_fifteen_hundred]; rfl

/-- C2 counterexample: an Immediate exchange in which one low byte `'A'`
arrives and the window then elapses with no high-bit terminator returns the
partial buffer `"A"` as a successful response, not a timeout error. -/
theorem immediate_timeout_partial_returned :
    (sendImmediate 6 true 'X' ⟨some 134, [some 65]⟩).1 = some "A" ∧
    (sendImmediate 6 true 'X' ⟨some 134, [some 65]⟩).1 ≠ none := by
  constructor
  · rfl
  · decide

theorem recvImm_no_terminator (st : List (Option Nat)) (acc : List Char)
    (h : ∀ b ∈ st.filterMap id, b < 128) :
    (recvImm st acc).1 =
      if (acc.reverse ++ (st.filterMap id).map Char.ofNat).isEmpty then none
      else some (String.mk (acc.reverse ++ (st.filterMap id).map Char.ofNat)) := by
  induction st generalizing acc with
  | nil => simp [recvImm, List.isEmpty_iff]
  | cons hd tl ih =>
    cases hd with
    | none =>
        have := ih acc (fun b hb => h b (by simpa using hb))
        simpa [recvImm] using this
    | some b =>
        have hb : b < 128 := h b (by simp)
        have htl := ih (Char.ofNat b :: acc)
          (fun x hx => h x (by simp [hx]))
        simp only [recvImm, if_neg (not_le.mpr hb)]
        rw [htl]
        simp [List.append_assoc]

/-- C2 (amended): when the receive window of an Immediate exchange elapses
before any high-bit terminator byte arrives, the operation returns `None`
only if the buffer is empty; a partial buffer is returned as the (apparently
successful) response string, not as a timeout error. -/
theorem sendImmediate_timeout_partial (unitId : Nat) (c : Char) (o : ImmOracle)
    (h : ∀ b ∈ o.stream.filterMap id, b < 128) :
    (sendImmediate unitId true c o).1 =
      if (o.stream.filterMap id).isEmpty then none
      else some (String.mk ((o.stream.filterMap id).map Char.ofNat)) := by
  have := recvImm_no_terminator o.stream [] h
  simpa [sendImmediate] using this

/-- Witness for `sendImmediate_timeout_partial` at a concrete stream that
delivers one low byte and then goes silent. -/
theorem sendImmediate_timeout_partial_witness :
    (∀ b ∈ ([some 65, none] : List (Option Nat)).filterMap id, b < 128) ∧
    (sendImmediate 6 true 'X' ⟨some 134, [some 65, none]⟩).1 =
      (if (([some 65, none] : List (Option Nat)).filterMap id).isEmpty then none
       else some (String.mk
         ((([some 65, none] : List (Option Nat)).filterMap id).map Char.ofNat))) :=
  ⟨by decide,
   sendImmediate_timeout_partial 6 'X' ⟨some 134, [some 65, none]⟩ (by decide)⟩

/-- C3 counterexample: a Buffered exchange whose first Line-Feed is answered
with `'#'` while the device stays busy throughout still reports success
(`true`); a second busy response does not make the exchange fail. -/
theorem buffered_second_busy_succeeds :
    (sendBuffered 6 true "X0500"
      ⟨some 134, some 35, [some 35, some 35, some 35, some 35, some 35]⟩).1
      = true := rfl

/-- C3 (amended): if the byte read after the first Line-Feed is `'#'`
(busy), the driver waits 100 ms and retries the Line-Feed exactly once more
and never again; it does not check the response to the retry, and the
exchange then proceeds and returns `true` regardless of any second busy
response. -/
theorem buffered_busy_single_retry (unitId : Nat) (cmd : String)
    (o : BufOracle) :
    (sendBuffered unitId true cmd o).1 = true ∧
    (sendBuffered unitId true cmd o).2 =
      connectSlaveEvs unitId o.echo ++ lfHandshakeEvs o.lfResp ++
      charEchoEvs cmd.data o.charEchoes ++ [Ev.write 13, Ev.sleep 50] ∧
    ((lfHandshakeEvs o.lfResp).count (Ev.write 10) =
      if o.lfResp = some 35 then 2 else 1) ∧
    (o.lfResp = some 35 →
      lfHandshakeEvs o.lfResp =
        [Ev.write 10, Ev.sleep 20, Ev.readB, Ev.sleep 100,
         Ev.write 10, Ev.sleep 20]) := by
  refine ⟨rfl, rfl, ?_, ?_⟩
  · rcases hr : o.lfResp with _ | b
    · decide
    · by_cases hb : b = 35
      · subst hb; decide
      · simp [lfHandshakeEvs, hb, List.count_cons]
  · intro h
    rw [h]
    rfl

/-- Witness for `buffered_busy_single_retry`: the busy branch at a concrete
oracle answering `'#'` to the first Line-Feed. -/
theorem buffered_busy_single_retry_witness :
    lfHandshakeEvs (some 35) =
      [Ev.write 10, Ev.sleep 20, Ev.readB, Ev.sleep 100,
       Ev.write 10, Ev.sleep 20] :=
  (buffered_busy_single_retry 6 "X0500" ⟨some 134, some 35, []⟩).2.2.2 rfl

/-- C4: `connect` performs the handshake (flush buffers, write `0xFF`, wait
20 ms, write `unit_id + 128`, wait 20 ms, read one byte if available) and
succeeds — the state becoming connected — exactly when the echo byte is
present and equals `unit_id + 128`; on an absent or mismatched echo it
reports failure and the state remains disconnected. -/
theorem connect_echo_iff (unitId : Nat) (echo : Option Nat) (vo : ImmOracle) :
    ((connect unitId true echo vo).1 = true ↔ echo = some (unitId + 128)) ∧
    ((connect unitId true echo vo).2.1.connected = true ↔
      echo = some (unitId + 128)) ∧
    (echo ≠ some (unitId + 128) →
      (connect unitId true echo vo).1 = false ∧
      (connect unitId true echo vo).2.1 = ⟨false, false⟩) ∧
    (connect unitId false echo vo).1 = false ∧
    (connect unitId false echo vo).2.1 = ⟨false, false⟩ ∧
    connectSlaveEvs unitId echo =
      [Ev.flushIn, Ev.flushOut, Ev.write 255, Ev.sleep 20,
       Ev.write (unitId + 128), Ev.sleep 20] ++
      (if echo.isSome then [Ev.readB] else []) := by
  have hok : connectSlaveOk unitId echo = true ↔ echo = some (unitId + 128) := by
    cases echo with
    | none => simp [connectSlaveOk]
    | some b => simp [connectSlaveOk]
  refine ⟨?_, ?_, ?_, rfl, rfl, ?_⟩
  · rw [← hok]
    cases h : connectSlaveOk unitId echo <;> simp [connect, h]
  · rw [← hok]
    cases h : connectSlaveOk unitId echo <;> simp [connect, h]
  · intro hne
    have hne' : ¬connectSlaveOk unitId echo = true := fun hh => hne (hok.mp hh)
    have h0 : connectSlaveOk unitId echo = false := by
      cases h : connectSlaveOk unitId echo
      · rfl
      · exact absurd h hne'
    simp [connect, h0]
  · cases echo <;> rfl

/-- Witness for `connect_echo_iff`: a concrete mismatched echo byte leaves
the driver disconnected. -/
theorem connect_echo_iff_witness :
    (connect 6 true (some 99) ⟨none, []⟩).1 = false ∧
    (connect 6 true (some 99) ⟨none, []⟩).2.1 = ⟨false, false⟩ :=
  (connect_echo_iff 6 (some 99) ⟨none, []⟩).2.2.1 (by decide)

/-- C5 counterexample: when the port is open and the underlying write of the
disconnect-all byte errors, a single `disconnect` raises to the caller and
the state stays connected — it is not the claimed never-failing teardown. -/
theorem disconnect_write_error_fails_caller :
    (disconnect ⟨true, true⟩ false).1 = Except.error "SerialException" ∧
    (disconnect ⟨true, true⟩ false).2.1 = ⟨true, true⟩ :=
  ⟨rfl, rfl⟩

/-- C5 (amended): when the underlying write succeeds, `disconnect` is
idempotent: calling it twice in a row raises no error and leaves the
connection state disconnected after each call (the second call is a no-op);
but when the underlying write of the disconnect-all byte errors, the
exception propagates to the caller and the state is unchanged. -/
theorem disconnect_idempotent_when_write_ok (st : DriverState)
    (h : st.connected = true → st.portOpen = true) :
    (disconnect st true).1 = Except.ok () ∧
    (disconnect st true).2.1.connected = false ∧
    disconnect (disconnect st true).2.1 true =
      (Except.ok (), (disconnect st true).2.1, []) := by
  rcases st with ⟨po, co⟩
  cases po with
  | true => exact ⟨rfl, rfl, rfl⟩
  | false =>
      cases co with
      | true => exact absurd (h rfl) (by decide)
      | false => exact ⟨rfl, rfl, rfl⟩

/-- Witness for `disconnect_idempotent_when_write_ok` at the connected
state. -/
theorem disconnect_idempotent_witness :
    (disconnect ⟨true, true⟩ true).1 = Except.ok () ∧
    (disconnect ⟨true, true⟩ true).2.1.connected = false ∧
    disconnect (disconnect ⟨true, true⟩ true).2.1 true =
      (Except.ok (), (disconnect ⟨true, true⟩ true).2.1, []) :=
  disconnect_idempotent_when_write_ok ⟨true, true⟩ (fun _ => rfl)

theorem pollOnce_fst (unitId : Nat) (p : ImmOracle × ImmOracle) :
    (pollOnce unitId true p).1 = pollStationary unitId p := rfl

theorem waitMotion_fst_iff (unitId : Nat)
    (polls : List (ImmOracle × ImmOracle)) :
    (waitMotion unitId true polls).1 = true ↔
      ∃ p ∈ polls, pollStationary unitId p = true := by
  induction polls with
  | nil => simp [waitMotion]
  | cons p rest ih =>
      by_cases hp : pollStationary unitId p = true
      · simp [waitMotion, pollOnce_fst, hp]
      · have hp0 : pollStationary unitId p = false := by
          cases h : pollStationary unitId p
          · rfl
          · exact absurd h hp
        simp [waitMotion, pollOnce_fst, hp0, ih]

/-- C6: `_wait_motion_complete` treats an axis as stationary exactly when
its Immediate response is present, non-empty and starts with `'S'`, and the
poll loop returns `true` exactly when some poll within the window reports
both axes stationary; in particular, whenever the two axes never
simultaneously report stationary within the window it returns `false`. -/
theorem waitMotion_both_stationary (unitId : Nat)
    (polls : List (ImmOracle × ImmOracle)) :
    ((waitMotion unitId true polls).1 = true ↔
      ∃ p ∈ polls, pollStationary unitId p = true) ∧
    ((∀ p ∈ polls, pollStationary unitId p = false) →
      (waitMotion unitId true polls).1 = false) ∧
    (∀ r : Option String, axStationary r = true ↔
      ∃ s : String, r = some s ∧ s.isEmpty = false ∧ s.front = 'S') := by
  refine ⟨waitMotion_fst_iff unitId polls, ?_, ?_⟩
  · intro hall
    cases h : (waitMotion unitId true polls).1
    · rfl
    · obtain ⟨p, hp, hs⟩ := (waitMotion_fst_iff unitId polls).mp h
      rw [hall p hp] at hs
      exact absurd hs (by decide)
  · intro r
    cases r with
    | none => simp [axStationary]
    | some s => simp [axStationary]

/-- Witness for `waitMotion_both_stationary`: with a device that never
answers, no poll reports stationary and the wait reports `false`. -/
theorem waitMotion_both_stationary_witness :
    (waitMotion 6 true [(⟨none, []⟩, ⟨none, []⟩)]).1 = false :=
  (waitMotion_both_stationary 6 [(⟨none, []⟩, ⟨none, []⟩)]).2.1 (by decide)

/-- C7: `get_position` parses the two axis responses independently — each
axis value is read from offset 2 of its response and divided by 10, a
response shorter than 5 characters or an unparsable value yields `none` for
that axis only, the other axis being unaffected, and the parse is total (no
exception escapes, `none` standing for the swallowed `ValueError`). -/
theorem getPosition_parsing (unitId : Nat) (ox oy : ImmOracle) :
    (getPosition unitId true ox oy).1 =
      (parseAxis (sendImmediate unitId true 'X' ox).1,
       parseAxis (sendImmediate unitId true 'Y' oy).1) ∧
    (∀ oy' : ImmOracle,
      (getPosition unitId true ox oy).1.1 = (getPosition unitId true ox oy').1.1) ∧
    (∀ ox' : ImmOracle,
      (getPosition unitId true ox oy).1.2 = (getPosition unitId true ox' oy).1.2) ∧
    (∀ s : String, s.length < 5 → parseAxis (some s) = none) ∧
    (∀ s : String, 5 ≤ s.length →
      parseAxis (some s) = (pyInt (s.data.drop 2)).map (fun n => (n : ℚ) / 10)) ∧
    (∀ s : String, pyInt (s.data.drop 2) = none → parseAxis (some s) = none) ∧
    parseAxis none = none ∧
    parseAxis (some "S00500") = some 50 ∧
    parseAxis (some "S0") = none ∧
    parseAxis (some "SXabcd") = none := by
  refine ⟨rfl, fun oy' => rfl, fun ox' => rfl, ?_, ?_, ?_, rfl, ?_, ?_, ?_⟩
  · intro s hs
    simp only [parseAxis]
    rw [if_neg (not_le.mpr hs)]
  · intro s hs
    simp only [parseAxis]
    rw [if_pos hs]
  · intro s hnone
    simp only [parseAxis]
    by_cases h5 : 5 ≤ s.length
    · rw [if_pos h5, hnone]
      rfl
    · rw [if_neg h5]
  · have hp : pyInt ("S00500".data.drop 2) = some 500 := by decide
    simp only [parseAxis]
    rw [if_pos (by decide), hp]
    norm_num
  · simp only [parseAxis]
    rw [if_neg (by decide)]
  · have hp : pyInt ("SXabcd".data.drop 2) = none := by decide
    simp only [parseAxis]
    rw [if_pos (by decide), hp]
    rfl

/-- Witness for `getPosition_parsing`: a too-short axis response parses to
`none`. -/
theorem getPosition_parsing_witness :
    parseAxis (some "ab") = none :=
  (getPosition_parsing 6 ⟨none, []⟩ ⟨none, []⟩).2.2.2.1 "ab" (by decide)

theorem writesOf_charEchoEvs (cs : List Char) (os : List (Option Nat)) :
    writesOf (charEchoEvs cs os) = cs.map Char.toNat := by
  induction cs generalizing os with
  | nil => rfl
  | cons c cs ih =>
      rcases hos : os.head? with _ | ⟨_ | b⟩ <;>
        · simp [charEchoEvs, writesOf, hos, List.filterMap_append]
          exact ih os.tail

/-- C8: `move_to_xy`'s trace is exactly the full Buffered X exchange,
followed by the 100 ms settling pause, followed by the full Buffered Y
exchange, followed by the motion-completion wait — no interleaving or
reordering — and within each Buffered exchange every command character is
written, in order. -/
theorem moveToXy_sequencing (unitId : Nat) (x y : ℚ) (o : MoveOracle) :
    moveToXy unitId true x y o =
      (sendBuffered unitId true (xCommand x) o.ox).2 ++ Ev.sleep 100 ::
        ((sendBuffered unitId true (yCommand y) o.oy).2 ++
         (waitMotion unitId true o.polls).2) ∧
    writesOf (charEchoEvs (xCommand x).data o.ox.charEchoes) =
      (xCommand x).data.map Char.toNat ∧
    writesOf (charEchoEvs (yCommand y).data o.oy.charEchoes) =
      (yCommand y).data.map Char.toNat ∧
    (sendBuffered unitId true (xCommand x) o.ox).2 =
      connectSlaveEvs unitId o.ox.echo ++ lfHandshakeEvs o.ox.lfResp ++
      charEchoEvs (xCommand x).data o.ox.charEchoes ++
      [Ev.write 13, Ev.sleep 50] :=
  ⟨rfl, writesOf_charEchoEvs _ _, writesOf_charEchoEvs _ _, rfl⟩

/-- C9: every exchange, Immediate and Buffered alike, emits the full
slave-addressing prefix of `_connect_slave` — flush, disconnect-all `0xFF`,
wait, `unit_id + 128`, wait — before its first command byte (the command
character, resp. the Line-Feed), and that prefix writes nothing but the two
addressing bytes. -/
theorem exchanges_readdress_first (unitId : Nat) (c : Char) (io : ImmOracle)
    (cmd : String) (bo : BufOracle) :
    (∃ rest, (sendImmediate unitId true c io).2 =
      connectSlaveEvs unitId io.echo ++ Ev.write c.toNat :: rest) ∧
    (∃ rest, (sendBuffered unitId true cmd bo).2 =
      connectSlaveEvs unitId bo.echo ++ Ev.write 10 :: rest) ∧
    (∀ e : Option Nat, ∃ tail, connectSlaveEvs unitId e =
      Ev.flushIn :: Ev.flushOut :: Ev.write 255 :: Ev.sleep 20 ::
      Ev.write (unitId + 128) :: Ev.sleep 20 :: tail) ∧
    (∀ e : Option Nat, writesOf (connectSlaveEvs unitId e) =
      [255, unitId + 128]) := by
  refine ⟨⟨(recvImm io.stream []).2, rfl⟩, ?_, ?_, ?_⟩
  · refine ⟨Ev.sleep 20 ::
      ((match bo.lfResp with
        | some b =>
            Ev.readB ::
              (if b == 35 then [Ev.sleep 100, Ev.write 10, Ev.sleep 20] else [])
        | none => []) ++
       (charEchoEvs cmd.data bo.charEchoes ++ [Ev.write 13, Ev.sleep 50])), ?_⟩
    simp [sendBuffered, lfHandshakeEvs, List.append_assoc]
  · intro e
    cases e <;> exact ⟨_, rfl⟩
  · intro e
    cases e <;> rfl

/-- C10: while disconnected, every command operation returns its failure
value with an empty bus trace — Immediate exchanges return `none`,
Buffered exchanges return `false`, `get_position` returns `(none, none)`
and `get_tube` returns 0, and no byte is written to the serial port. -/
theorem disconnected_no_bus_io (unitId : Nat) (c : Char) (io : ImmOracle)
    (cmd : String) (bo : BufOracle) (oy ot : ImmOracle) :
    sendImmediate unitId false c io = (none, []) ∧
    sendBuffered unitId false cmd bo = (false, []) ∧
    getPosition unitId false io oy = ((none, none), []) ∧
    getTube unitId false ot = (0, []) :=
  ⟨rfl, rfl, rfl, rfl⟩

end Gilson
